import Mathlib

/-!
# Editor::newGeneralClipboard on Windows

A shallow embedding of `Editor::newGeneralClipboard` from
`Source/WebCore/platform/win/EditorWin.cpp`.

The C++ function talks to three pieces of code that live outside of it:
the operating system (`OleGetClipboard`), the clipboard factory
(`Clipboard::createForCopyAndPaste`) and the pasteboard mutator
(`Pasteboard::setExternalDataObject`).  The embedding passes an explicit
`World` around: the live `Clipboard` objects (a `RefPtr<Clipboard>` is an
index into them) and the log of these three kinds of calls made so far.

The local `clipboardData` is a `COMPtr<IDataObject>`, a smart pointer that
calls `Release()` through the pointer it holds when it is overwritten or goes
out of scope.  A call through a pointer that addresses no live COM object has
no defined result, and the run then yields `none`.
-/

set_option linter.unusedVariables false

namespace WebCore

/-- Windows status code `HRESULT` (a signed 32-bit integer), kept as an integer. -/
abbrev HRESULT := Int

/-- The Windows SDK test `SUCCEEDED(hr)`: the status is non-negative. -/
def SUCCEEDED (hr : HRESULT) : Bool := decide (0 ≤ hr)

/-- Raw C++ pointers (`IDataObject*`, `Frame*`) are addresses; the null pointer is `0`. -/
abbrev Ptr := Nat

/-- Modelled from the spec: the `Pasteboard` class is declared in `Pasteboard.h`, which is
not among the sources.  The spec only speaks of the native contents (the external data
object) attached to it, so that is its one field; `0` means nothing is attached. -/
structure Pasteboard where
  externalDataObject : Ptr
deriving DecidableEq

/-- Modelled from the spec: the `Clipboard` class is declared in `Clipboard.h`, which is
not among the sources.  The spec describes "a clipboard object for the requested access
policy" with a pasteboard as collaborator.  The enumeration `ClipboardAccessPolicy` is
not among the sources either and is taken as a type parameter. -/
structure Clipboard (ClipboardAccessPolicy : Type) where
  policy : ClipboardAccessPolicy
  pasteboard : Pasteboard
deriving DecidableEq

/-- The calls of `Editor::newGeneralClipboard` that are logged: the OS clipboard-open
call, the clipboard construction and the pasteboard update.  Accessors and the
`Release()` of a COM reference are not logged. -/
inductive Call (ClipboardAccessPolicy : Type) where
  | OleGetClipboard : Call ClipboardAccessPolicy
  | createForCopyAndPaste (policy : ClipboardAccessPolicy) : Call ClipboardAccessPolicy
  | setExternalDataObject (clipboard : Nat) (dataObject : Ptr) : Call ClipboardAccessPolicy
deriving DecidableEq

/-- Whether a logged call is the OS clipboard-open call. -/
def Call.isOleGetClipboard {ClipboardAccessPolicy : Type} :
    Call ClipboardAccessPolicy → Bool
  | Call.OleGetClipboard => true
  | _ => false

/-- Whether a logged call is a clipboard construction. -/
def Call.isCreateForCopyAndPaste {ClipboardAccessPolicy : Type} :
    Call ClipboardAccessPolicy → Bool
  | Call.createForCopyAndPaste _ => true
  | _ => false

/-- Whether a logged call is a `setExternalDataObject`. -/
def Call.isSetExternalDataObject {ClipboardAccessPolicy : Type} :
    Call ClipboardAccessPolicy → Bool
  | Call.setExternalDataObject _ _ => true
  | _ => false

/-- The state the function runs in: the live `Clipboard` objects, addressed by their
position (a `RefPtr<Clipboard>` is such a position), and the log of outside calls in
program order. -/
structure World (ClipboardAccessPolicy : Type) where
  objects : List (Clipboard ClipboardAccessPolicy)
  calls : List (Call ClipboardAccessPolicy)
deriving DecidableEq

/-- Everything one `OleGetClipboard(&clipboardData)` can do to its caller: the returned
status, the value found in the out-parameter after the call (the slot is null before the
call, so "left untouched" is the value `0`), and whether that value, when it is not null,
is a dangling address, one of no live COM object. -/
structure OleOutcome where
  hr : HRESULT
  ppDataObj : Ptr
  dangling : Bool
deriving DecidableEq

/-- An answer of the operating system that keeps to the COM rules for out-parameters:
the returned status and a data object, that is, the out-parameter holds null or the
address of a live `IDataObject`. -/
structure OleAnswer where
  hr : HRESULT
  ppDataObj : Ptr
deriving DecidableEq

/-- An answer within the COM rules, as an outcome: its pointer is not dangling. -/
def OleAnswer.toOleOutcome (os : OleAnswer) : OleOutcome :=
  { hr := os.hr, ppDataObj := os.ppDataObj, dangling := false }

instance : Coe OleAnswer OleOutcome := ⟨OleAnswer.toOleOutcome⟩

/-- Whether `Release()` can be called on what the OS left in the out-parameter: there is
nothing to release (null), or the address is that of a live COM object. -/
def OleOutcome.releasable (os : OleOutcome) : Bool :=
  os.ppDataObj == 0 || !os.dangling

/-- The OS call `OleGetClipboard(&clipboardData)`: it is logged, and hands back the
status together with the content of the out-parameter. -/
def OleGetClipboard {ClipboardAccessPolicy : Type} (os : OleOutcome)
    (w : World ClipboardAccessPolicy) : (HRESULT × Ptr) × World ClipboardAccessPolicy :=
  ((os.hr, os.ppDataObj), { w with calls := w.calls ++ [Call.OleGetClipboard] })

/-- The COM method `IUnknown::Release()` called through the pointer `p`: a call through
a dangling pointer has no defined result; through a live object it gives up one
reference, which leaves the clipboards and the call log as they are. -/
def IDataObject.Release {ClipboardAccessPolicy : Type} (dangling : Bool) (p : Ptr)
    (w : World ClipboardAccessPolicy) : Option (World ClipboardAccessPolicy) :=
  if dangling then none else some w

/-- Modelled from the spec: `COMPtr.h` is not among the sources.  The spec says the data
object reference "is cleared"; for the COM smart pointer that is the assignment
`clipboardData = optr`, which stores `optr` and releases the pointer `m_ptr` held
before when that is not null.  The result is the pointer held afterwards. -/
def COMPtr.assign {ClipboardAccessPolicy : Type} (dangling : Bool) (m_ptr optr : Ptr)
    (w : World ClipboardAccessPolicy) : Option (Ptr × World ClipboardAccessPolicy) :=
  if m_ptr = 0 then some (optr, w)
  else (IDataObject.Release dangling m_ptr w).map (fun w => (optr, w))

/-- Modelled from the spec: `COMPtr.h` is not among the sources.  The spec says the
ownership of the data-object handle "is scoped to the call"; when the local
`clipboardData` goes out of scope, the COM smart pointer releases the pointer `m_ptr`
it holds when that is not null. -/
def COMPtr.destroy {ClipboardAccessPolicy : Type} (dangling : Bool) (m_ptr : Ptr)
    (w : World ClipboardAccessPolicy) : Option (World ClipboardAccessPolicy) :=
  if m_ptr = 0 then some w else IDataObject.Release dangling m_ptr w

/-- Modelled from the spec: `Clipboard::createForCopyAndPaste` is defined outside the
sources.  Following "construct a clipboard object for the requested access policy", it
allocates a new clipboard carrying `policy`, with nothing attached to its pasteboard,
and returns the reference to it. -/
def Clipboard.createForCopyAndPaste {ClipboardAccessPolicy : Type}
    (policy : ClipboardAccessPolicy) (w : World ClipboardAccessPolicy) :
    Nat × World ClipboardAccessPolicy :=
  (w.objects.length,
   { objects := w.objects ++ [{ policy := policy, pasteboard := { externalDataObject := 0 } }],
     calls := w.calls ++ [Call.createForCopyAndPaste policy] })

/-- Modelled from the spec: `Pasteboard::setExternalDataObject` is defined outside the
sources.  Following "attach the native contents to it", it stores `dataObject` as the
external data object of the pasteboard of `clipboard` (the receiver
`clipboard->pasteboard()`); it fails when `clipboard` refers to no live object. -/
def Pasteboard.setExternalDataObject {ClipboardAccessPolicy : Type} (clipboard : Nat)
    (dataObject : Ptr) (w : World ClipboardAccessPolicy) :
    Option (World ClipboardAccessPolicy) :=
  match w.objects[clipboard]? with
  | none => none
  | some c =>
    some { objects := w.objects.set clipboard
             { c with pasteboard := { c.pasteboard with externalDataObject := dataObject } },
           calls := w.calls ++ [Call.setExternalDataObject clipboard dataObject] }

/-- The function `Editor::newGeneralClipboard(policy, frame)`.  The flag `wince` is the
compile-time configuration `OS(WINCE)`; `os` is what the operating system does if it is
asked.  The result is the returned clipboard reference and the new state, or `none` when
the run calls through a dangling pointer. -/
def Editor.newGeneralClipboard {ClipboardAccessPolicy : Type} (wince : Bool)
    (os : OleOutcome) (policy : ClipboardAccessPolicy) (frame : Ptr)
    (w : World ClipboardAccessPolicy) : Option (Nat × World ClipboardAccessPolicy) :=
  -- COMPtr<IDataObject> clipboardData;
  let clipboardData : Ptr := 0
  -- #if !OS(WINCE)
  --     if (!SUCCEEDED(OleGetClipboard(&clipboardData)))
  --         clipboardData = 0;
  -- #endif
  match (if wince then some (clipboardData, w)
         else
           let ((hr, clipboardData), w) := OleGetClipboard os w
           if !SUCCEEDED hr then COMPtr.assign os.dangling clipboardData 0 w
           else some (clipboardData, w)) with
  | none => none
  | some (clipboardData, w) =>
    -- RefPtr<Clipboard> clipboard = Clipboard::createForCopyAndPaste(policy);
    let (clipboard, w) := Clipboard.createForCopyAndPaste policy w
    -- const_cast<Pasteboard&>(clipboard->pasteboard()).setExternalDataObject(clipboardData.get());
    match Pasteboard.setExternalDataObject clipboard clipboardData w with
    | none => none
    | some w =>
      -- return clipboard.release();   and, leaving the scope, ~COMPtr() on clipboardData
      match COMPtr.destroy os.dangling clipboardData w with
      | none => none
      | some w => some (clipboard, w)

/-- The external data object of the pasteboard of the clipboard `clipboard` in `w`, when
that clipboard is live. -/
def attachedDataObject {ClipboardAccessPolicy : Type} (clipboard : Nat)
    (w : World ClipboardAccessPolicy) : Option Ptr :=
  (w.objects[clipboard]?).map (fun c => c.pasteboard.externalDataObject)

/-- The access policy of the clipboard `clipboard` in `w`, when that clipboard is live. -/
def policyOf {ClipboardAccessPolicy : Type} (clipboard : Nat)
    (w : World ClipboardAccessPolicy) : Option ClipboardAccessPolicy :=
  (w.objects[clipboard]?).map (fun c => c.policy)

/-- The data object the function passes on: null on Windows CE and after a failed OS
call, otherwise what the OS handed out. -/
def passedDataObject (wince : Bool) (os : OleOutcome) : Ptr :=
  if wince then 0 else if SUCCEEDED os.hr then os.ppDataObj else 0

/-- The outside calls of one run, in order. -/
def callsOfRun {ClipboardAccessPolicy : Type} (wince : Bool) (os : OleOutcome)
    (policy : ClipboardAccessPolicy) (clipboard : Nat) : List (Call ClipboardAccessPolicy) :=
  (if wince then [] else [Call.OleGetClipboard]) ++
    [Call.createForCopyAndPaste policy,
     Call.setExternalDataObject clipboard (passedDataObject wince os)]

/-! ## Shared lemmas -/

section Lemmas

variable {ClipboardAccessPolicy : Type}

/-- A run in which every `Release()` goes through null or a live object returns, and
its result is known in closed form. -/
theorem newGeneralClipboard_eq (wince : Bool) (os : OleOutcome)
    (policy : ClipboardAccessPolicy) (frame : Ptr) (w : World ClipboardAccessPolicy)
    (hrel : os.releasable = true) :
    Editor.newGeneralClipboard wince os policy frame w =
      some (w.objects.length,
        { objects := w.objects ++
            [{ policy := policy,
               pasteboard := { externalDataObject := passedDataObject wince os } }],
          calls := w.calls ++ callsOfRun wince os policy w.objects.length }) := by
  have h : os.ppDataObj = 0 ∨ os.dangling = false := by
    simpa [OleOutcome.releasable] using hrel
  cases wince <;> cases hs : SUCCEEDED os.hr <;> rcases h with h | h <;>
    by_cases h0 : os.ppDataObj = 0 <;>
    simp [Editor.newGeneralClipboard, OleGetClipboard, Clipboard.createForCopyAndPaste,
      Pasteboard.setExternalDataObject, COMPtr.assign, COMPtr.destroy,
      IDataObject.Release, passedDataObject, callsOfRun, hs, h, h0]

/-- In the configuration that asks the OS, a run that is left with a dangling pointer
that is not null returns nothing: after a failure the assignment of line 49 calls
`Release()` through it, after a success the local going out of scope does. -/
theorem newGeneralClipboard_dangling (os : OleOutcome) (policy : ClipboardAccessPolicy)
    (frame : Ptr) (w : World ClipboardAccessPolicy)
    (hptr : os.ppDataObj ≠ 0) (hdang : os.dangling = true) :
    Editor.newGeneralClipboard false os policy frame w = none := by
  cases hs : SUCCEEDED os.hr <;>
    simp [Editor.newGeneralClipboard, OleGetClipboard, Clipboard.createForCopyAndPaste,
      Pasteboard.setExternalDataObject, COMPtr.assign, COMPtr.destroy,
      IDataObject.Release, hs, hptr, hdang]

/-- An answer within the COM rules is releasable. -/
theorem OleAnswer.releasable_toOleOutcome (os : OleAnswer) :
    os.toOleOutcome.releasable = true := by
  simp [OleAnswer.toOleOutcome, OleOutcome.releasable]

/-- The test `SUCCEEDED` holds exactly for the non-negative statuses. -/
theorem SUCCEEDED_iff (hr : HRESULT) : SUCCEEDED hr = true ↔ 0 ≤ hr := by
  simp [SUCCEEDED]

end Lemmas

/-! ## The claims -/

section Claims

variable {ClipboardAccessPolicy : Type}

/-- C1 as stated fails: after the status `E_FAIL` (0x80004005 as a signed 32-bit value)
with the dangling address 7 left in the out-parameter, the assignment `clipboardData = 0`
calls `Release()` through that address and `Editor::newGeneralClipboard` returns no
clipboard. -/
theorem newGeneralClipboard_failed_open_dangling_no_clipboard :
    SUCCEEDED (OleOutcome.mk (-2147467259) 7 true).hr = false ∧
    Editor.newGeneralClipboard false (OleOutcome.mk (-2147467259) 7 true) (2 : Nat) 0
      (World.mk [] []) = none ∧
    ¬ ∃ clipboard w',
      Editor.newGeneralClipboard false (OleOutcome.mk (-2147467259) 7 true) (2 : Nat) 0
        (World.mk [] []) = some (clipboard, w') := by
  refine ⟨by decide, by decide, ?_⟩
  rintro ⟨clipboard, w', h⟩
  have hnone : Editor.newGeneralClipboard false (OleOutcome.mk (-2147467259) 7 true)
      (2 : Nat) 0 (World.mk [] []) = none := by decide
  rw [hnone] at h
  exact Option.noConfusion h

/-- C1, amended: whenever the status of the OS clipboard-open call is a failure
(`SUCCEEDED` is false) and the value left in the out-parameter is null or the address of
a live COM object, for every configuration, policy, frame and starting state
`Editor::newGeneralClipboard` returns a reference to a live clipboard, the external data
object handed to `setExternalDataObject` for that clipboard is null, and null is what
its pasteboard holds afterwards. -/
theorem newGeneralClipboard_failed_open_attaches_null (wince : Bool) (os : OleOutcome)
    (policy : ClipboardAccessPolicy) (frame : Ptr) (w : World ClipboardAccessPolicy)
    (hfail : SUCCEEDED os.hr = false)
    (hrel : os.ppDataObj = 0 ∨ os.dangling = false) :
    ∃ clipboard w',
      Editor.newGeneralClipboard wince os policy frame w = some (clipboard, w') ∧
      attachedDataObject clipboard w' = some 0 ∧
      w'.calls.getLast? = some (Call.setExternalDataObject clipboard 0) := by
  have hr : os.releasable = true := by
    simpa [OleOutcome.releasable] using hrel
  refine ⟨_, _, newGeneralClipboard_eq wince os policy frame w hr, ?_, ?_⟩
  · simp [attachedDataObject, passedDataObject, hfail]
  · cases wince <;> simp [callsOfRun, passedDataObject, hfail, List.getLast?_append]

/-- Witness for the amended C1: the status `E_FAIL` with the out-parameter left null, as
a failing `OleGetClipboard` leaves it. -/
theorem newGeneralClipboard_failed_open_attaches_null_witness :
    SUCCEEDED (OleOutcome.mk (-2147467259) 0 false).hr = false ∧
    ((OleOutcome.mk (-2147467259) 0 false).ppDataObj = 0 ∨
      (OleOutcome.mk (-2147467259) 0 false).dangling = false) ∧
    ∃ clipboard w',
      Editor.newGeneralClipboard false (OleOutcome.mk (-2147467259) 0 false) (2 : Nat) 0
        (World.mk [] []) = some (clipboard, w') ∧
      attachedDataObject clipboard w' = some 0 ∧
      w'.calls.getLast? = some (Call.setExternalDataObject clipboard 0) :=
  ⟨by decide, Or.inl rfl,
   newGeneralClipboard_failed_open_attaches_null false (OleOutcome.mk (-2147467259) 0 false)
     (2 : Nat) 0 (World.mk [] []) (by decide) (Or.inl rfl)⟩

/-- C2: in the configuration that makes the OS call (not Windows CE), when the status is
non-negative, `SUCCEEDED` holds and the returned clipboard is live and has exactly the
data object `os.ppDataObj` yielded by the OS attached to its pasteboard: that pointer is
the argument of the `setExternalDataObject` call and the value held afterwards. -/
theorem newGeneralClipboard_successful_open_attaches_data (os : OleAnswer)
    (policy : ClipboardAccessPolicy) (frame : Ptr) (w : World ClipboardAccessPolicy)
    (hok : 0 ≤ os.hr) :
    SUCCEEDED os.hr = true ∧
    ∃ clipboard w',
      Editor.newGeneralClipboard false os policy frame w = some (clipboard, w') ∧
      attachedDataObject clipboard w' = some os.ppDataObj ∧
      w'.calls.getLast? = some (Call.setExternalDataObject clipboard os.ppDataObj) := by
  have hs : SUCCEEDED os.hr = true := (SUCCEEDED_iff os.hr).mpr hok
  refine ⟨hs, _, _,
    newGeneralClipboard_eq false os policy frame w (OleAnswer.releasable_toOleOutcome os),
    ?_, ?_⟩
  · simp [attachedDataObject, passedDataObject, OleAnswer.toOleOutcome, hs]
  · simp [callsOfRun, passedDataObject, OleAnswer.toOleOutcome, hs, List.getLast?_append]

/-- Witness for C2: the status `S_OK` with data object 4096, in a state that already
holds one clipboard. -/
theorem newGeneralClipboard_successful_open_attaches_data_witness :
    (0 : Int) ≤ (OleAnswer.mk 0 4096).hr ∧
    SUCCEEDED (OleAnswer.mk 0 4096).hr = true ∧
    ∃ clipboard w',
      Editor.newGeneralClipboard false (OleAnswer.mk 0 4096) (3 : Nat) 0
        (World.mk [Clipboard.mk 1 (Pasteboard.mk 0)] []) = some (clipboard, w') ∧
      attachedDataObject clipboard w' = some (OleAnswer.mk 0 4096).ppDataObj ∧
      w'.calls.getLast? =
        some (Call.setExternalDataObject clipboard (OleAnswer.mk 0 4096).ppDataObj) :=
  ⟨by decide,
   newGeneralClipboard_successful_open_attaches_data (OleAnswer.mk 0 4096) (3 : Nat) 0
     (World.mk [Clipboard.mk 1 (Pasteboard.mk 0)] []) (by decide)⟩

/-- C3: for every configuration, OS answer (success or failure), policy, frame and
starting state, the returned reference is the one `Clipboard::createForCopyAndPaste`
hands out when called with the requested policy (in the state reached after the optional
OS call); it is a new object, the final state is that of the construction followed by
one `setExternalDataObject` on it, and the clipboard carries the requested policy right
after construction and at return. -/
theorem newGeneralClipboard_returns_created_clipboard (wince : Bool) (os : OleAnswer)
    (policy : ClipboardAccessPolicy) (frame : Ptr) (w : World ClipboardAccessPolicy) :
    ∃ clipboard w' wc d,
      Editor.newGeneralClipboard wince os policy frame w = some (clipboard, w') ∧
      Clipboard.createForCopyAndPaste policy
        (if wince then w else (OleGetClipboard os w).2) = (clipboard, wc) ∧
      Pasteboard.setExternalDataObject clipboard d wc = some w' ∧
      w.objects[clipboard]? = none ∧
      policyOf clipboard wc = some policy ∧
      policyOf clipboard w' = some policy := by
  refine ⟨_, _,
    (Clipboard.createForCopyAndPaste policy (if wince then w else (OleGetClipboard os w).2)).2,
    passedDataObject wince os,
    newGeneralClipboard_eq wince os policy frame w (OleAnswer.releasable_toOleOutcome os),
    ?_, ?_, ?_, ?_, ?_⟩
  · cases wince <;> rfl
  · cases wince <;>
      simp [Pasteboard.setExternalDataObject, Clipboard.createForCopyAndPaste,
        OleGetClipboard, callsOfRun]
  · simp
  · cases wince <;> simp [policyOf, Clipboard.createForCopyAndPaste, OleGetClipboard]
  · simp [policyOf]

/-- C4: one run, from any starting state, appends to the call log at most one OS
clipboard-open call, then exactly one `createForCopyAndPaste`, then exactly one
`setExternalDataObject` whose receiver is the clipboard just constructed (a reference
that was not live before) and nothing else; on Windows CE the OS is not called at all
and the pasteboard of the returned clipboard holds the null data object. -/
theorem newGeneralClipboard_call_sequence (os : OleAnswer)
    (policy : ClipboardAccessPolicy) (frame : Ptr) (w : World ClipboardAccessPolicy) :
    (∀ wince : Bool, ∃ clipboard w' pre d,
      Editor.newGeneralClipboard wince os policy frame w = some (clipboard, w') ∧
      w'.calls = w.calls ++ (pre ++
        [Call.createForCopyAndPaste policy, Call.setExternalDataObject clipboard d]) ∧
      (pre = [] ∨ pre = [Call.OleGetClipboard]) ∧
      w.objects[clipboard]? = none ∧
      attachedDataObject clipboard w' = some d ∧
      (w'.calls.drop w.calls.length).countP Call.isOleGetClipboard ≤ 1 ∧
      (w'.calls.drop w.calls.length).countP Call.isCreateForCopyAndPaste = 1 ∧
      (w'.calls.drop w.calls.length).countP Call.isSetExternalDataObject = 1) ∧
    (∃ clipboard w',
      Editor.newGeneralClipboard true os policy frame w = some (clipboard, w') ∧
      w'.calls = w.calls ++
        [Call.createForCopyAndPaste policy, Call.setExternalDataObject clipboard 0] ∧
      (w'.calls.drop w.calls.length).countP Call.isOleGetClipboard = 0 ∧
      attachedDataObject clipboard w' = some 0) := by
  refine ⟨fun wince => ?_, ?_⟩
  · refine ⟨_, _, if wince then [] else [Call.OleGetClipboard], passedDataObject wince os,
      newGeneralClipboard_eq wince os policy frame w (OleAnswer.releasable_toOleOutcome os),
      ?_, ?_, ?_, ?_, ?_, ?_, ?_⟩
    · cases wince <;> simp [callsOfRun]
    · cases wince <;> simp
    · simp
    · simp [attachedDataObject]
    · cases wince <;>
        simp [callsOfRun, Call.isOleGetClipboard, List.countP_cons]
    · cases wince <;>
        simp [callsOfRun, Call.isCreateForCopyAndPaste, List.countP_cons]
    · cases wince <;>
        simp [callsOfRun, Call.isSetExternalDataObject, List.countP_cons]
  · refine ⟨_, _,
      newGeneralClipboard_eq true os policy frame w (OleAnswer.releasable_toOleOutcome os),
      ?_, ?_, ?_⟩
    · simp [callsOfRun, passedDataObject]
    · simp [callsOfRun, Call.isOleGetClipboard, List.countP_cons]
    · simp [attachedDataObject, passedDataObject]

/-- C5: the frame argument has no influence.  With the same configuration, OS answer and
policy, two runs with frames `f1` and `f2` (null included) from the same state give the
same result, and from any two states both return a live clipboard, with the same policy
and the same attached external data object. -/
theorem newGeneralClipboard_frame_irrelevant (wince : Bool) (os : OleAnswer)
    (policy : ClipboardAccessPolicy) (f1 f2 : Ptr) (w1 w2 : World ClipboardAccessPolicy) :
    Editor.newGeneralClipboard wince os policy f1 w1 =
      Editor.newGeneralClipboard wince os policy f2 w1 ∧
    ∃ c1 w1' c2 w2' p d,
      Editor.newGeneralClipboard wince os policy f1 w1 = some (c1, w1') ∧
      Editor.newGeneralClipboard wince os policy f2 w2 = some (c2, w2') ∧
      policyOf c1 w1' = some p ∧ policyOf c2 w2' = some p ∧
      attachedDataObject c1 w1' = some d ∧ attachedDataObject c2 w2' = some d := by
  refine ⟨?_, _, _, _, _, policy, passedDataObject wince os,
    newGeneralClipboard_eq wince os policy f1 w1 (OleAnswer.releasable_toOleOutcome os),
    newGeneralClipboard_eq wince os policy f2 w2 (OleAnswer.releasable_toOleOutcome os),
    ?_, ?_, ?_, ?_⟩
  · rw [newGeneralClipboard_eq _ _ _ f1 _ (OleAnswer.releasable_toOleOutcome os),
      newGeneralClipboard_eq _ _ _ f2 _ (OleAnswer.releasable_toOleOutcome os)]
  all_goals simp [policyOf, attachedDataObject]

end Claims

end WebCore
